import Mathlib

/-!
Verification of the TADA session/login core (`src/server/net_server.py`).

The Python module is shallowly embedded below.  Pure data (the `Message`
envelope, the per-address `LoginHistory` record) becomes Lean structures;
Python dicts keyed by user id become association lists with Python's
insertion-order update semantics; the mutating methods of `LoginHistory`
become functions returning the new record together with the list of
snapshots persisted by `save()`.  The session handler `UserHandler.handle`
is embedded as a recursive function over a script of transport events; the
external collaborators (`nc.User`, `nc.Invite`, the overridable hook
methods) are inputs to the model, as they live outside this module.
-/

namespace NetServer

/-- Embedding of `nc.Mode` as used by `net_server.py`: the mode field of the wire
envelope (`app`, `login`, `bye`). -/
inductive Mode where
  | app
  | login
  | bye
deriving DecidableEq, Repr

/-- Embedding of `class Error(str, enum.Enum)` from `net_server.py`, plus `noError`
for the dataclass default `error: str = ''`. -/
inductive Error where
  | noError
  | server1
  | server2
  | user_id
  | login1
  | login2
  | multiple
deriving DecidableEq, Repr

/-- Embedding of the `Message` dataclass from `net_server.py`, fields in source
order with the source defaults. -/
structure Message where
  lines : List String
  mode : Mode := Mode.app
  changes : List (String × String) := []
  choices : List (String × String) := []
  prompt : String := ""
  error : Error := Error.noError
  error_line : String := ""
deriving DecidableEq, Repr

/-- Python `d.get(k, 0)` on a user-id-keyed counter dict. -/
def dictGet (d : List (String × Nat)) (k : String) : Nat :=
  match d.find? (fun p => p.1 = k) with
  | some p => p.2
  | none => 0

/-- Python `k in d`. -/
def dictHas (d : List (String × Nat)) (k : String) : Bool :=
  d.any (fun p => p.1 = k)

/-- Python `d[k] = v`: update in place if the key exists (insertion
order kept), else append. -/
def dictSet (d : List (String × Nat)) (k : String) (v : Nat) :
    List (String × Nat) :=
  if dictHas d k then
    d.map (fun p => if p.1 = k then (k, v) else p)
  else
    d ++ [(k, v)]

/-- Python `d.pop(k)` (used only under an `in` guard; on an absent key
this is the identity). -/
def dictPop (d : List (String × Nat)) (k : String) : List (String × Nat) :=
  d.filter (fun p => ¬ p.1 = k)

/-- Embedding of the `LoginHistory` dataclass from `net_server.py`, with the
source defaults.  Dicts are modelled as association lists. -/
structure LoginHistory where
  addr : String
  no_user_attempts : List (String × Nat) := []
  bad_password_attempts : List (String × Nat) := []
  fail_count : Nat := 0
  ban_count : Nat := 0
deriving DecidableEq, Repr

/-- The constant `LoginHistory._fail_limit = 10`. -/
def fail_limit : Nat := 10

/-- Result of an effectful `LoginHistory` method: the returned boolean,
the record after the call, and the snapshots written by `self.save()`
in call order. -/
structure LHResult where
  isBanned : Bool
  state : LoginHistory
  saves : List LoginHistory
deriving DecidableEq, Repr

/-- Embedding of `LoginHistory.banned(self, update, save=False)`. -/
def LoginHistory.banned (lh : LoginHistory) (update : Bool)
    (save : Bool := false) : LHResult :=
  let is_banned := decide (lh.fail_count ≥ fail_limit)
  if is_banned && update then
    let lh' := { lh with ban_count := lh.ban_count + 1 }
    { isBanned := is_banned, state := lh',
      saves := if save then [lh'] else [] }
  else
    { isBanned := is_banned, state := lh, saves := [] }

/-- Embedding of `LoginHistory.no_user(self, user_id, save=False)`. -/
def LoginHistory.no_user (lh : LoginHistory) (user_id : String)
    (save : Bool := false) : LHResult :=
  let lh1 : LoginHistory :=
    { lh with
      fail_count := lh.fail_count + 1,
      no_user_attempts :=
        dictSet lh.no_user_attempts user_id
          (dictGet lh.no_user_attempts user_id + 1) }
  let firstSaves := if save then [lh1] else []
  let r := lh1.banned true save
  { r with saves := firstSaves ++ r.saves }

/-- Embedding of `LoginHistory.fail_password(self, user_id, save=False)`. -/
def LoginHistory.fail_password (lh : LoginHistory) (user_id : String)
    (save : Bool := false) : LHResult :=
  let lh1 : LoginHistory :=
    { lh with
      fail_count := lh.fail_count + 1,
      bad_password_attempts :=
        dictSet lh.bad_password_attempts user_id
          (dictGet lh.bad_password_attempts user_id + 1) }
  let firstSaves := if save then [lh1] else []
  let r := lh1.banned true save
  { r with saves := firstSaves ++ r.saves }

/-- Embedding of `LoginHistory.succeed_user(self, user_id, save=False)`:
returns the
new record and the persisted snapshots. -/
def LoginHistory.succeed_user (lh : LoginHistory) (user_id : String)
    (save : Bool := false) : LoginHistory × List LoginHistory :=
  let lh1 : LoginHistory :=
    { lh with
      fail_count := 0,
      bad_password_attempts :=
        if dictHas lh.bad_password_attempts user_id then
          dictPop lh.bad_password_attempts user_id
        else
          lh.bad_password_attempts }
  (lh1, if save then [lh1] else [])

/-- The `error_ban()` closure inside `UserHandler._process_login`. -/
def error_ban_message : Message :=
  { lines := [], error_line := "Too many failed attempts.",
    error := Error.login2, mode := Mode.bye }

/-- The `error_login_failed()` closure inside `UserHandler._process_login`
(`lines` comes from the overridable `login_fail_lines` hook). -/
def error_login_failed_message (failLines : List String) : Message :=
  { lines := failLines, error_line := "Login failed.",
    error := Error.login1, mode := Mode.login }

/-- The `error=Error.multiple` reply in `UserHandler._process_login`. -/
def multiple_message : Message :=
  { lines := ["One connection allowed at a time."],
    error_line := "Multiple connections.",
    error := Error.multiple, mode := Mode.bye }

/-- The `error=Error.user_id` reply in `UserHandler._process_login`. -/
def user_id_required_message : Message :=
  { lines := ["User id required."], error_line := "No user id.",
    error := Error.user_id, mode := Mode.bye }

/-- The external collaborators consulted by `_process_login`, plus the
one overridable hook it reads through `self.`: `nc.User.load` (as an
existence predicate), `nc.Invite.load` (as the invite's code, when one
exists), `User.matchPassword` for existing accounts, and the
`self.login_fail_lines()` hook output.  These live outside
`net_server.py` (or are the subclass's pluggable surface), so they are
inputs of the model.  The success reply is *not* an input: line 247
reads `return process_login_success(user_id)` without `self.`, which
statically binds the module-level two-parameter stub (line 268) — see
`LoginResult.raised`. -/
structure LoginEnv where
  user_exists : String → Bool
  invite : String → Option String
  match_password : String → String → Bool
  login_fail_lines : List String

/-- Outcome of one `_process_login` call: the returned reply, the value
of `self.user` afterwards, the login history and the snapshots it
persisted, the `connected_users` set afterwards, and whether the call
raised instead of returning.  `raised` is set only on the success path:
its final `return process_login_success(user_id)` (line 247, no
`self.`) calls the module-level stub `process_login_success(self,
user_id)` (line 268) with a single argument, a `TypeError` raised after
the side effects (`self.user`, registry add, `succeed_user`) have
already happened.  When `raised` is set no reply exists; the `reply`
field is a placeholder that no consumer reads. -/
structure LoginResult where
  reply : Message
  user : Option String
  history : LoginHistory
  saves : List LoginHistory
  connected : List String
  raised : Bool := false
deriving DecidableEq, Repr

/-- Python `set.add` on the `connected_users` set (modelled as a list
without duplicates; adding a present element is a no-op). -/
def connAdd (c : List String) (u : String) : List String :=
  if u ∈ c then c else c ++ [u]

/-- The tail of `_process_login` once a `user` object is in hand (either
a pre-existing account or one just created from an invite): the
`connected_users` membership check, the password check, and the success
path.  `created` records whether the account was just created with the
supplied password (in which case `matchPassword` holds by the contract
of `hash_password`). -/
def login_user_checks (env : LoginEnv) (connected : List String)
    (lh : LoginHistory) (user_id password : String) (created : Bool) :
    LoginResult :=
  if user_id ∈ connected then
    { reply := multiple_message, user := none, history := lh,
      saves := [], connected := connected }
  else if !(if created then true else env.match_password user_id password) then
    let r := lh.fail_password user_id true
    if r.isBanned then
      { reply := error_ban_message, user := none, history := r.state,
        saves := r.saves, connected := connected }
    else
      { reply := error_login_failed_message env.login_fail_lines,
        user := none, history := r.state, saves := r.saves,
        connected := connected }
  else
    -- Lines 243-247: `self.user = user`, registry add and `succeed_user`
    -- run, then `return process_login_success(user_id)` raises `TypeError`
    -- (module-level two-parameter stub called with one argument).
    let s := lh.succeed_user user_id true
    { reply := { lines := [] }, user := some user_id,
      history := s.1, saves := s.2,
      connected := connAdd connected user_id, raised := true }

/-- Embedding of `UserHandler._process_login(self, data)` for a well-formed
`data['login'] = [user_id, password, invite_code]`. -/
def process_login (env : LoginEnv) (connected : List String)
    (lh : LoginHistory) (user_id password invite_code : String) :
    LoginResult :=
  if user_id = "" then
    { reply := user_id_required_message, user := none, history := lh,
      saves := [], connected := connected }
  else if env.user_exists user_id then
    login_user_checks env connected lh user_id password false
  else
    match env.invite user_id with
    | none =>
      let r := lh.no_user user_id true
      if r.isBanned then
        { reply := error_ban_message, user := none, history := r.state,
          saves := r.saves, connected := connected }
      else
        { reply := error_login_failed_message env.login_fail_lines,
          user := none, history := r.state, saves := r.saves,
          connected := connected }
    | some code =>
      if code ≠ invite_code then
        let r := lh.no_user user_id true
        if r.isBanned then
          { reply := error_ban_message, user := none, history := r.state,
            saves := r.saves, connected := connected }
        else
          { reply := error_login_failed_message env.login_fail_lines,
            user := none, history := r.state, saves := r.saves,
            connected := connected }
      else
        login_user_checks env connected lh user_id password true

/-- A decoded client message, as inspected by the handler: a handshake
(`data.get('id')`, `data.get('key')`, protocol number), a well-formed
login triple (`data['login']`), or any other payload (dispatched to the
overridable `process_message` once authenticated; raising `KeyError`
inside `_process_login` when it lacks a `login` entry). -/
inductive Request where
  | init (id key : String) (protocol : Nat)
  | login (user_id password invite_code : String)
  | cmd (payload : String)
deriving DecidableEq, Repr

/-- One transport event seen by `UserHandler.handle`'s loop: a decoded
message, an orderly close (`_receive_data` returns `None`), or an
exception raised while receiving. -/
inductive RecvEvent where
  | msg (r : Request)
  | closed
  | raised
deriving DecidableEq, Repr

/-- The configured module globals (`server_id`, `server_key`), the
overridable hooks, and the transport's send behaviour: `send_ok n` is
whether the `n`-th `sendall` of the session succeeds (a failing send
raises, e.g. a broken pipe). -/
structure HandleEnv where
  server_id : String
  server_key : String
  init_success_lines : List String
  login : LoginEnv
  on_message : Request → Option Message
  send_ok : Nat → Bool

/-- The handler's mutable per-session fields, plus the Python local
variable `response` of `handle`'s loop (`none` while still unbound;
reading it unbound raises `NameError`). -/
structure SessState where
  ready : Bool
  user : Option String
  lh : LoginHistory
  connected : List String
  resp : Option (Option Message)
deriving Repr

/-- The `Message(lines=["Terminating session."], ...)` replies built in
`handle`'s two `except` blocks (the interpolated exception text in
`error_line` is abstracted to its constant prefix). -/
def server_error_message (e : Error) : Message :=
  { lines := ["Terminating session."], error_line := "server side error",
    error := e, mode := Mode.bye }

/-- Embedding of `UserHandler._process_init(self, data)`: the response
(`none` is the silent drop) and the new value of `self.ready`.  A
non-handshake payload has `data.get('id') = None`, which mismatches the
configured `server_id`. -/
def process_init (env : HandleEnv) (r : Request) : Option Message × Bool :=
  match r with
  | .init id key _ =>
    if id = env.server_id then
      if key = env.server_key then
        (some { lines := env.init_success_lines, mode := Mode.login }, true)
      else
        (none, false)
    else
      (none, false)
  | _ => (none, false)

/-- What one `while running` iteration's dispatch produced: either a
Python exception — `KeyError` from `data['login']` on a malformed login
payload, or the `TypeError` of the success path (line 247), each
carrying the session fields and persisted snapshots as of the raise —
or the `response`, the updated session fields, and the snapshots. -/
def session_dispatch (env : HandleEnv) (st : SessState) (r : Request) :
    Except (SessState × List LoginHistory)
      (Option Message × SessState × List LoginHistory) :=
  if st.ready = false then
    let p := process_init env r
    .ok (p.1, { st with ready := p.2 }, [])
  else if st.user = none then
    match r with
    | .login u pw ic =>
      let res := process_login env.login st.connected st.lh u pw ic
      let st' : SessState :=
        { st with user := res.user, lh := res.history,
                  connected := res.connected }
      if res.raised then .error (st', res.saves)
      else .ok (some res.reply, st', res.saves)
    | _ => .error (st, [])
  else
    .ok (env.on_message r, st, [])

/-- Result of running `handle`'s `while running` loop on a script of
transport events: the successfully sent replies in order, the persisted
login-history snapshots, the final session state, the next send index,
and whether an exception escaped the loop (and hence `handle`). -/
structure LoopOut where
  sent : List Message
  saves : List LoginHistory
  state : SessState
  sendIdx : Nat
  escaped : Bool
deriving Repr

/-- The `while running` loop of `UserHandler.handle`, lines 127-156 of
`net_server.py`.  An exhausted script behaves like an orderly close.
Each branch mirrors the source: a receive exception reaches the outer
`except` (send `server2`/`bye`, keep looping; a failing send there
escapes `handle`); a dispatch exception reaches the inner `except`
(send `server1`/`bye`), after which `if response is None` reads the
*stale* `response` binding (`NameError`, routed to the outer `except`,
when it was never bound); a `None` response ends the loop; otherwise
the response is sent, a send failure being routed to the outer
`except`. -/
def session_loop (env : HandleEnv) :
    SessState → List RecvEvent → Nat → LoopOut
  | st, [], i =>
    { sent := [], saves := [], state := st, sendIdx := i, escaped := false }
  | st, ev :: rest, i =>
    let rescue : SessState → List LoginHistory → Nat → LoopOut :=
      fun stx sv j =>
        if env.send_ok j then
          let cont := session_loop env stx rest (j + 1)
          { cont with
            sent := server_error_message Error.server2 :: cont.sent,
            saves := sv ++ cont.saves }
        else
          { sent := [], saves := sv, state := stx, sendIdx := j + 1,
            escaped := true }
    match ev with
    | .closed =>
      { sent := [], saves := [], state := st, sendIdx := i, escaped := false }
    | .raised => rescue st [] i
    | .msg r =>
      match session_dispatch env st r with
      | .error (stx, sv) =>
        if env.send_ok i then
          match stx.resp with
          | none => -- `response` never bound: NameError → outer except
            let out := rescue stx sv (i + 1)
            { out with sent := server_error_message Error.server1 :: out.sent }
          | some none => -- stale `response` is None → loop ends
            { sent := [server_error_message Error.server1], saves := sv,
              state := stx, sendIdx := i + 1, escaped := false }
          | some (some m) => -- stale response is re-sent
            if env.send_ok (i + 1) then
              let cont := session_loop env stx rest (i + 2)
              { cont with
                sent := server_error_message Error.server1 :: m :: cont.sent,
                saves := sv ++ cont.saves }
            else
              let out := rescue stx sv (i + 2)
              { out with
                sent := server_error_message Error.server1 :: out.sent }
        else
          rescue stx sv (i + 1)
      | .ok (resp, st', sv) =>
        let st2 := { st' with resp := some resp }
        match resp with
        | none =>
          { sent := [], saves := sv, state := st2, sendIdx := i,
            escaped := false }
        | some m =>
          if env.send_ok i then
            let cont := session_loop env st2 rest (i + 1)
            { cont with sent := m :: cont.sent, saves := sv ++ cont.saves }
          else
            rescue st2 sv (i + 1)

/-- What one whole `UserHandler.handle` call did: the replies sent, the
persisted snapshots, `connected_users` and the login history at the
end, the final `self.user`, whether the connection was refused by the
ban gate, whether an exception escaped `handle`, and which user id the
epilogue removed from `connected_users` (if any). -/
structure HandleOut where
  sent : List Message
  saves : List LoginHistory
  connected : List String
  lh : LoginHistory
  user : Option String
  refused : Bool
  escaped : Bool
  removed : Option String
deriving Repr

/-- Embedding of `UserHandler.handle(self)`: the ban gate
(`self.login_history.banned(True, save=True)` with an early return),
then the session loop, then the epilogue that removes `self.user.id`
from `connected_users` — reached only when no exception escaped the
loop. -/
def handle (env : HandleEnv) (lh0 : LoginHistory)
    (connected0 : List String) (script : List RecvEvent) : HandleOut :=
  let g := lh0.banned true true
  if g.isBanned then
    { sent := [], saves := g.saves, connected := connected0,
      lh := g.state, user := none, refused := true, escaped := false,
      removed := none }
  else
    let st0 : SessState :=
      { ready := false, user := none, lh := g.state,
        connected := connected0, resp := none }
    let out := session_loop env st0 script 0
    let fin :=
      if out.escaped then (out.state.connected, (none : Option String))
      else
        match out.state.user with
        | some uid => (out.state.connected.erase uid, some uid)
        | none => (out.state.connected, none)
    { sent := out.sent, saves := g.saves ++ out.saves,
      connected := fin.1, lh := out.state.lh, user := out.state.user,
      refused := false, escaped := out.escaped, removed := fin.2 }

/-! ## Serialized form of `LoginHistory` (`save` / `load`)

`LoginHistory.save` dumps `{k: v for k, v in o.__dict__.items() if v}`:
every field whose value is Python-falsy (zero, empty dict, empty
string) is omitted from the JSON object.  `LoginHistory.load` rebuilds
the record with `LoginHistory(**lh_data)`, so omitted fields take the
dataclass defaults; a JSON object lacking `addr` makes the constructor
call fail. -/

/-- The JSON object written by `LoginHistory.save`: one optional slot
per dataclass field, `none` when the field was omitted as falsy. -/
structure SavedLH where
  addr : Option String
  no_user_attempts : Option (List (String × Nat))
  bad_password_attempts : Option (List (String × Nat))
  fail_count : Option Nat
  ban_count : Option Nat
deriving DecidableEq, Repr

/-- The serialization in `LoginHistory.save`: keep each field iff its
value is truthy. -/
def save_json (lh : LoginHistory) : SavedLH :=
  { addr := if lh.addr = "" then none else some lh.addr,
    no_user_attempts :=
      if lh.no_user_attempts = [] then none else some lh.no_user_attempts,
    bad_password_attempts :=
      if lh.bad_password_attempts = [] then none
      else some lh.bad_password_attempts,
    fail_count := if lh.fail_count = 0 then none else some lh.fail_count,
    ban_count := if lh.ban_count = 0 then none else some lh.ban_count }

/-- The `LoginHistory(**lh_data)` call in `LoginHistory.load`: absent
keys take the dataclass defaults; an absent `addr` raises `TypeError`
(modelled as `none`). -/
def load_json (s : SavedLH) : Option LoginHistory :=
  match s.addr with
  | none => none
  | some a =>
    some { addr := a,
           no_user_attempts := s.no_user_attempts.getD [],
           bad_password_attempts := s.bad_password_attempts.getD [],
           fail_count := s.fail_count.getD 0,
           ban_count := s.ban_count.getD 0 }

/-- One recorded failed login attempt: which `LoginHistory` method the
server called, and for which user id. -/
inductive FailEvent where
  | noUser (user_id : String)
  | badPassword (user_id : String)
deriving DecidableEq, Repr

/-- Apply one failed attempt to a history record, as `_process_login`
does (`save=True`). -/
def applyFail (lh : LoginHistory) (e : FailEvent) : LoginHistory :=
  match e with
  | .noUser u => (lh.no_user u true).state
  | .badPassword u => (lh.fail_password u true).state

/-- A run of consecutive failed attempts against one address. -/
def applyFails (lh : LoginHistory) (es : List FailEvent) : LoginHistory :=
  es.foldl applyFail lh

/-- A concrete collaborator environment used to evaluate the model:
one existing account `alice` with password `pw`, one open invite for
`carol` with code `SECRET`, and the stock hook outputs from
`net_server.py`. -/
def testLoginEnv : LoginEnv :=
  { user_exists := fun u => u = "alice",
    invite := fun u => if u = "carol" then some "SECRET" else none,
    match_password := fun u pw => u = "alice" && pw = "pw",
    login_fail_lines := ["please try again."] }

/-- A concrete handler environment: the configured id/key from
`common.py`, the stock greeting, and a transport whose sends all
succeed. -/
def testHandleEnv : HandleEnv :=
  { server_id := "TADA", server_key := "1234567890",
    init_success_lines := ["Generic Server.", "Please log in."],
    login := testLoginEnv,
    on_message := fun _ => none,
    send_ok := fun _ => true }

/-! ## Association-list lemmas -/

theorem dictHas_dictPop (d : List (String × Nat)) (k : String) :
    dictHas (dictPop d k) k = false := by
  induction d with
  | nil => rfl
  | cons p d ih =>
    by_cases hp : p.1 = k
    · simp only [dictPop, List.filter_cons] at *
      simpa [hp] using ih
    · simp only [dictPop, dictHas, List.filter_cons, List.any_cons] at *
      simp [hp, ih]

theorem dictGet_cons_ne (p : String × Nat) (d : List (String × Nat))
    (v : String) (hv : ¬ p.1 = v) : dictGet (p :: d) v = dictGet d v := by
  simp [dictGet, List.find?, hv]

theorem dictGet_cons_eq (p : String × Nat) (d : List (String × Nat))
    (v : String) (hv : p.1 = v) : dictGet (p :: d) v = p.2 := by
  simp [dictGet, List.find?, hv]

theorem dictGet_dictPop_ne (d : List (String × Nat)) (k v : String)
    (h : v ≠ k) : dictGet (dictPop d k) v = dictGet d v := by
  induction d with
  | nil => rfl
  | cons p d ih =>
    by_cases hp : p.1 = k
    · have hpv : ¬ p.1 = v := fun hc => h (by rw [← hc]; exact hp)
      have h1 : dictPop (p :: d) k = dictPop d k := by
        simp [dictPop, List.filter_cons, hp]
      rw [h1, dictGet_cons_ne p d v hpv]
      exact ih
    · have h1 : dictPop (p :: d) k = p :: dictPop d k := by
        simp [dictPop, List.filter_cons, hp]
      by_cases hv : p.1 = v
      · rw [h1, dictGet_cons_eq p _ v hv, dictGet_cons_eq p d v hv]
      · rw [h1, dictGet_cons_ne p _ v hv, dictGet_cons_ne p d v hv]
        exact ih

/-! ## Claims about `LoginHistory` alone -/

/-- C6: `succeed_user(U)` zeroes `fail_count` and drops `U` from
`bad_password_attempts`, and nothing else changes: `no_user_attempts`,
`ban_count`, `addr`, and every other user's `bad_password_attempts`
entry are untouched. -/
theorem succeed_user_frame (lh : LoginHistory) (u : String) (s : Bool) :
    (lh.succeed_user u s).1.fail_count = 0 ∧
    dictHas (lh.succeed_user u s).1.bad_password_attempts u = false ∧
    (lh.succeed_user u s).1.no_user_attempts = lh.no_user_attempts ∧
    (lh.succeed_user u s).1.ban_count = lh.ban_count ∧
    (lh.succeed_user u s).1.addr = lh.addr ∧
    ∀ v, v ≠ u →
      dictGet (lh.succeed_user u s).1.bad_password_attempts v =
        dictGet lh.bad_password_attempts v := by
  unfold LoginHistory.succeed_user
  by_cases h : dictHas lh.bad_password_attempts u
  · exact ⟨rfl, by simpa [h] using dictHas_dictPop lh.bad_password_attempts u,
      rfl, rfl, rfl,
      fun v hv => by simpa [h] using dictGet_dictPop_ne _ u v hv⟩
  · exact ⟨rfl, by simp only [if_neg h]; simpa using h, rfl, rfl, rfl,
      fun v hv => by simp [h]⟩

/-- Closed instance of `succeed_user_frame` at a concrete record. -/
theorem succeed_user_frame_witness :
    ("z" : String) ≠ "y" ∧
      dictGet ((LoginHistory.mk "a" [("x", 2)] [("y", 1), ("z", 2)] 4 1).succeed_user
          "y" true).1.bad_password_attempts "z" =
        dictGet [("y", 1), ("z", 2)] "z" :=
  ⟨by decide,
    (succeed_user_frame (LoginHistory.mk "a" [("x", 2)] [("y", 1), ("z", 2)] 4 1)
      "y" true).2.2.2.2.2 "z" (by decide)⟩

/-- C10: each `no_user` / `fail_password` call bumps `fail_count` by
one and, exactly when the new `fail_count` reaches `_fail_limit`, also
bumps `ban_count` by one (via `banned(True)`); below the limit
`ban_count` is unchanged. -/
theorem fail_attempt_ban_count (lh : LoginHistory) (u : String) (s : Bool) :
    (lh.no_user u s).state.fail_count = lh.fail_count + 1 ∧
    (lh.fail_password u s).state.fail_count = lh.fail_count + 1 ∧
    (lh.no_user u s).state.ban_count =
      (if fail_limit ≤ lh.fail_count + 1 then lh.ban_count + 1
       else lh.ban_count) ∧
    (lh.fail_password u s).state.ban_count =
      (if fail_limit ≤ lh.fail_count + 1 then lh.ban_count + 1
       else lh.ban_count) ∧
    (lh.no_user u s).isBanned = decide (fail_limit ≤ lh.fail_count + 1) ∧
    (lh.fail_password u s).isBanned =
      decide (fail_limit ≤ lh.fail_count + 1) := by
  by_cases h : fail_limit ≤ lh.fail_count + 1 <;>
    simp [LoginHistory.no_user, LoginHistory.fail_password,
      LoginHistory.banned, h]

/-- C9: for a record with a non-empty `addr`, `save` followed by `load`
of the same address restores the record exactly: the constructor
defaults coincide with the omitted falsy values. -/
theorem save_load_roundtrip (lh : LoginHistory) (h : lh.addr ≠ "") :
    load_json (save_json lh) = some lh := by
  cases lh with
  | mk addr nua bpa fc bc =>
    simp only [save_json, load_json] at *
    simp only [ne_eq] at h
    simp only [if_neg h]
    split_ifs <;> simp_all

/-- Closed instance of `save_load_roundtrip` at a concrete record. -/
theorem save_load_roundtrip_witness :
    (LoginHistory.mk "1.2.3.4" [("u", 1)] [] 0 2).addr ≠ "" ∧
      load_json (save_json (LoginHistory.mk "1.2.3.4" [("u", 1)] [] 0 2)) =
        some (LoginHistory.mk "1.2.3.4" [("u", 1)] [] 0 2) :=
  ⟨by decide, save_load_roundtrip _ (by decide)⟩

/-! ## Claims about `_process_login` -/

/-- C5: a login attempt naming an existing account whose id is already
in `connected_users` is answered with the `multiple` reply (mode `bye`)
with `self.user` left unset, the login history untouched and not
persisted, and the registry unchanged — and the outcome is independent
of the password matcher, i.e. the password is never verified. -/
theorem already_connected_multiple (env : LoginEnv)
    (m' : String → String → Bool) (connected : List String)
    (lh : LoginHistory) (u pw ic : String) (hne : u ≠ "")
    (hex : env.user_exists u = true) (hconn : u ∈ connected) :
    process_login env connected lh u pw ic =
      { reply := multiple_message, user := none, history := lh,
        saves := [], connected := connected } ∧
    process_login { env with match_password := m' } connected lh u pw ic =
      process_login env connected lh u pw ic := by
  constructor <;>
    simp [process_login, hne, hex, login_user_checks, hconn]

/-- Closed instance of `already_connected_multiple`: `alice` is already
connected and supplies the correct password, yet gets `multiple` and
nothing is recorded. -/
theorem already_connected_multiple_witness :
    ("alice" : String) ≠ "" ∧ testLoginEnv.user_exists "alice" = true ∧
      "alice" ∈ ["alice"] ∧
      process_login testLoginEnv ["alice"] (LoginHistory.mk "a" [] [] 0 0)
          "alice" "pw" "" =
        { reply := multiple_message, user := none,
          history := LoginHistory.mk "a" [] [] 0 0, saves := [],
          connected := ["alice"] } :=
  ⟨by decide, by decide, by decide,
    (already_connected_multiple testLoginEnv (fun _ _ => false) ["alice"]
      (LoginHistory.mk "a" [] [] 0 0) "alice" "pw" "" (by decide) (by decide)
      (by decide)).1⟩

/-- C7 is refuted: the reply to an empty `user_id` *does* carry
`mode=Mode.bye` in the source (`net_server.py` line 191), contradicting
the claim that its mode is not `bye`. -/
theorem empty_user_id_reply_is_bye :
    (process_login testLoginEnv [] (LoginHistory.mk "a" [] [] 0 0)
        "" "pw" "").reply.error = Error.user_id ∧
    (process_login testLoginEnv [] (LoginHistory.mk "a" [] [] 0 0)
        "" "pw" "").reply.mode = Mode.bye := by
  decide

/-- C7 (amended): an empty `user_id` is answered with `error=user_id`
and `mode=bye`; the session stays non-authenticated and nothing else is
touched (history unchanged, nothing persisted, registry unchanged). -/
theorem empty_user_id_reply (env : LoginEnv) (connected : List String)
    (lh : LoginHistory) (pw ic : String) :
    process_login env connected lh "" pw ic =
      { reply := user_id_required_message, user := none, history := lh,
        saves := [], connected := connected } ∧
    user_id_required_message.error = Error.user_id ∧
    user_id_required_message.mode = Mode.bye := by
  refine ⟨?_, rfl, rfl⟩
  simp [process_login]

theorem applyFail_fail_count (lh : LoginHistory) (e : FailEvent) :
    (applyFail lh e).fail_count = lh.fail_count + 1 := by
  cases e <;>
    · simp only [applyFail, LoginHistory.no_user, LoginHistory.fail_password,
        LoginHistory.banned]
      split <;> rfl

theorem applyFails_fail_count (lh : LoginHistory) (es : List FailEvent) :
    (applyFails lh es).fail_count = lh.fail_count + es.length := by
  induction es generalizing lh with
  | nil => rfl
  | cons e es ih =>
    show (applyFails (applyFail lh e) es).fail_count = _
    rw [ih, applyFail_fail_count]
    simp [List.length_cons]
    omega

/-- Calling `no_user` at or past the threshold returns banned and bumps
`ban_count`. -/
theorem no_user_banned_of_limit (lh : LoginHistory) (u : String)
    (h : fail_limit ≤ lh.fail_count + 1) :
    lh.no_user u true =
      { isBanned := true,
        state :=
          { lh with
            fail_count := lh.fail_count + 1,
            no_user_attempts :=
              dictSet lh.no_user_attempts u (dictGet lh.no_user_attempts u + 1),
            ban_count := lh.ban_count + 1 },
        saves :=
          [{ lh with
             fail_count := lh.fail_count + 1,
             no_user_attempts :=
               dictSet lh.no_user_attempts u (dictGet lh.no_user_attempts u + 1) },
           { lh with
             fail_count := lh.fail_count + 1,
             no_user_attempts :=
               dictSet lh.no_user_attempts u (dictGet lh.no_user_attempts u + 1),
             ban_count := lh.ban_count + 1 }] } := by
  simp [LoginHistory.no_user, LoginHistory.banned, h]

/-- Calling `fail_password` at or past the threshold returns banned and bumps
`ban_count`. -/
theorem fail_password_banned_of_limit (lh : LoginHistory) (u : String)
    (h : fail_limit ≤ lh.fail_count + 1) :
    lh.fail_password u true =
      { isBanned := true,
        state :=
          { lh with
            fail_count := lh.fail_count + 1,
            bad_password_attempts :=
              dictSet lh.bad_password_attempts u
                (dictGet lh.bad_password_attempts u + 1),
            ban_count := lh.ban_count + 1 },
        saves :=
          [{ lh with
             fail_count := lh.fail_count + 1,
             bad_password_attempts :=
               dictSet lh.bad_password_attempts u
                 (dictGet lh.bad_password_attempts u + 1) },
           { lh with
             fail_count := lh.fail_count + 1,
             bad_password_attempts :=
               dictSet lh.bad_password_attempts u
                 (dictGet lh.bad_password_attempts u + 1),
             ban_count := lh.ban_count + 1 }] } := by
  simp [LoginHistory.fail_password, LoginHistory.banned, h]

/-- C1 is refuted: after ten consecutive failed attempts from an
address (`fail_count` = `FAIL_LIMIT`), the next attempt on the same
session with *correct* credentials for an existing, not-connected
account is neither answered with `login2` nor does it increment
`ban_count`.  `_process_login` never consults `banned()` before
verifying credentials: the whole success path runs — `self.user` is
set, the id registered, `fail_count` reset to 0 by `succeed_user` —
and then `return process_login_success(user_id)` (line 247) raises
`TypeError` (module-level two-parameter stub called with one
argument).  At the session level the client is answered
`server1`/`bye` by the inner `except` handler, followed by a re-send
of the *stale* previous reply (the ban message of the tenth failure),
and `ban_count` ends at 1, not 2. -/
theorem correct_password_after_limit_not_banned :
    (applyFails (LoginHistory.mk "1.2.3.4" [] [] 0 0)
        (List.replicate 10 (FailEvent.noUser "bob"))).fail_count = fail_limit ∧
    (process_login testLoginEnv []
        (applyFails (LoginHistory.mk "1.2.3.4" [] [] 0 0)
          (List.replicate 10 (FailEvent.noUser "bob")))
        "alice" "pw" "").raised = true ∧
    (process_login testLoginEnv []
        (applyFails (LoginHistory.mk "1.2.3.4" [] [] 0 0)
          (List.replicate 10 (FailEvent.noUser "bob")))
        "alice" "pw" "").user = some "alice" ∧
    (process_login testLoginEnv []
        (applyFails (LoginHistory.mk "1.2.3.4" [] [] 0 0)
          (List.replicate 10 (FailEvent.noUser "bob")))
        "alice" "pw" "").history.fail_count = 0 ∧
    (process_login testLoginEnv []
        (applyFails (LoginHistory.mk "1.2.3.4" [] [] 0 0)
          (List.replicate 10 (FailEvent.noUser "bob")))
        "alice" "pw" "").history.ban_count =
      (applyFails (LoginHistory.mk "1.2.3.4" [] [] 0 0)
        (List.replicate 10 (FailEvent.noUser "bob"))).ban_count ∧
    (handle testHandleEnv (LoginHistory.mk "1.2.3.4" [] [] 0 0) []
        (.msg (.init "TADA" "1234567890" 1) ::
          (List.replicate 10 (RecvEvent.msg (.login "mallory" "x" "")) ++
            [RecvEvent.msg (.login "alice" "pw" "")]))).sent =
      { lines := ["Generic Server.", "Please log in."],
        mode := Mode.login } ::
        (List.replicate 9 (error_login_failed_message ["please try again."]) ++
          [error_ban_message, server_error_message Error.server1,
           error_ban_message]) ∧
    (handle testHandleEnv (LoginHistory.mk "1.2.3.4" [] [] 0 0) []
        (.msg (.init "TADA" "1234567890" 1) ::
          (List.replicate 10 (RecvEvent.msg (.login "mallory" "x" "")) ++
            [RecvEvent.msg (.login "alice" "pw" "")]))).lh.ban_count = 1 ∧
    (handle testHandleEnv (LoginHistory.mk "1.2.3.4" [] [] 0 0) []
        (.msg (.init "TADA" "1234567890" 1) ::
          (List.replicate 10 (RecvEvent.msg (.login "mallory" "x" "")) ++
            [RecvEvent.msg (.login "alice" "pw" "")]))).lh.fail_count = 0 := by
  decide

/-- C1 (amended): after `FAIL_LIMIT` consecutive failed attempts from
an address (any mix of `no_user` and `fail_password`), the next attempt
on the same session is answered `login2` with `ban_count` incremented
*provided its own credentials are also incorrect* — unknown user
without invite, wrong invite code, or wrong password for an unconnected
existing account.  An attempt with correct credentials for an existing,
not-connected account is not blocked either: the ban is never
consulted, the success path runs (`self.user` set, id registered,
`fail_count` reset) and then raises `TypeError` at the
`process_login_success` call (line 247), leaving `ban_count`
unchanged. -/
theorem next_attempt_after_limit (env : LoginEnv)
    (addr : String) (es : List FailEvent) (connected : List String)
    (u pw ic : String) (hlen : es.length = fail_limit) (hu : u ≠ "") :
    (((env.user_exists u = false ∧ env.invite u = none) ∨
      (env.user_exists u = false ∧
        ∃ c, env.invite u = some c ∧ c ≠ ic) ∨
      (env.user_exists u = true ∧ u ∉ connected ∧
        env.match_password u pw = false)) →
      (process_login env connected
          (applyFails (LoginHistory.mk addr [] [] 0 0) es) u pw ic).reply =
        error_ban_message ∧
      (process_login env connected
          (applyFails (LoginHistory.mk addr [] [] 0 0) es) u pw ic).history.ban_count =
        (applyFails (LoginHistory.mk addr [] [] 0 0) es).ban_count + 1 ∧
      (process_login env connected
          (applyFails (LoginHistory.mk addr [] [] 0 0) es) u pw ic).user =
        none) ∧
    (env.user_exists u = true → u ∉ connected →
      env.match_password u pw = true →
      (process_login env connected
          (applyFails (LoginHistory.mk addr [] [] 0 0) es) u pw ic).raised =
        true ∧
      (process_login env connected
          (applyFails (LoginHistory.mk addr [] [] 0 0) es) u pw ic).user =
        some u ∧
      (process_login env connected
          (applyFails (LoginHistory.mk addr [] [] 0 0) es) u pw ic).history.fail_count =
        0 ∧
      (process_login env connected
          (applyFails (LoginHistory.mk addr [] [] 0 0) es) u pw ic).history.ban_count =
        (applyFails (LoginHistory.mk addr [] [] 0 0) es).ban_count ∧
      (process_login env connected
          (applyFails (LoginHistory.mk addr [] [] 0 0) es) u pw ic).connected =
        connAdd connected u) := by
  have hfc :
      (applyFails (LoginHistory.mk addr [] [] 0 0) es).fail_count = fail_limit := by
    rw [applyFails_fail_count, hlen]
    simp
  have hlim :
      fail_limit ≤ (applyFails (LoginHistory.mk addr [] [] 0 0) es).fail_count + 1 := by
    omega
  constructor
  · intro hbad
    rcases hbad with ⟨h1, h2⟩ | ⟨h1, c, h2, h3⟩ | ⟨h1, h2, h3⟩
    · simp [process_login, hu, h1, h2, no_user_banned_of_limit _ u hlim]
    · simp [process_login, hu, h1, h2, h3, no_user_banned_of_limit _ u hlim]
    · simp [process_login, hu, h1, login_user_checks, h2, h3,
        fail_password_banned_of_limit _ u hlim]
  · intro h1 h2 h3
    simp [process_login, hu, h1, login_user_checks, h2, h3,
      LoginHistory.succeed_user]

/-- Closed instances of `next_attempt_after_limit`: after ten `no_user`
failures, an eleventh unknown-user attempt is answered `login2`, while
an eleventh correct-credential attempt raises instead of being
blocked. -/
theorem next_attempt_after_limit_witness :
    (List.replicate 10 (FailEvent.noUser "bob")).length = fail_limit ∧
      testLoginEnv.user_exists "alice" = true ∧
      testLoginEnv.match_password "alice" "pw" = true ∧
      (process_login testLoginEnv []
          (applyFails (LoginHistory.mk "1.2.3.4" [] [] 0 0)
            (List.replicate 10 (FailEvent.noUser "bob")))
          "mallory" "x" "").reply = error_ban_message ∧
      (process_login testLoginEnv []
          (applyFails (LoginHistory.mk "1.2.3.4" [] [] 0 0)
            (List.replicate 10 (FailEvent.noUser "bob")))
          "alice" "pw" "").raised = true :=
  ⟨by decide, by decide, by decide,
    ((next_attempt_after_limit testLoginEnv "1.2.3.4"
        (List.replicate 10 (FailEvent.noUser "bob")) [] "mallory" "x" ""
        (by decide) (by decide)).1 (Or.inl ⟨by decide, by decide⟩)).1,
    ((next_attempt_after_limit testLoginEnv "1.2.3.4"
        (List.replicate 10 (FailEvent.noUser "bob")) [] "alice" "pw" ""
        (by decide) (by decide)).2 (by decide) (by decide) (by decide)).1⟩

/-! ## Claims about `UserHandler.handle` -/

/-- C3: `handle` refuses the connection before any message processing
exactly when the address's `fail_count` has reached `_fail_limit`; the
refusal itself increments `ban_count` by one, persists the bumped
record, and sends nothing. -/
theorem ban_gate (env : HandleEnv) (lh0 : LoginHistory)
    (c0 : List String) (script : List RecvEvent) :
    ((handle env lh0 c0 script).refused = true ↔
      fail_limit ≤ lh0.fail_count) ∧
    (fail_limit ≤ lh0.fail_count →
      (handle env lh0 c0 script).sent = [] ∧
      (handle env lh0 c0 script).lh =
        { lh0 with ban_count := lh0.ban_count + 1 } ∧
      (handle env lh0 c0 script).saves =
        [{ lh0 with ban_count := lh0.ban_count + 1 }] ∧
      (handle env lh0 c0 script).user = none ∧
      (handle env lh0 c0 script).connected = c0) := by
  by_cases h : fail_limit ≤ lh0.fail_count
  · simp [handle, LoginHistory.banned, h]
  · simp [handle, LoginHistory.banned, h]

/-- Closed instance of `ban_gate` at `fail_count = 10`. -/
theorem ban_gate_witness :
    fail_limit ≤ (LoginHistory.mk "b" [] [] 10 3).fail_count ∧
      (handle testHandleEnv (LoginHistory.mk "b" [] [] 10 3) ["x"]
        [.msg (.init "TADA" "1234567890" 1)]).sent = [] ∧
      (handle testHandleEnv (LoginHistory.mk "b" [] [] 10 3) ["x"]
        [.msg (.init "TADA" "1234567890" 1)]).lh =
        { LoginHistory.mk "b" [] [] 10 3 with ban_count := 4 } :=
  ⟨by decide,
    ((ban_gate testHandleEnv (LoginHistory.mk "b" [] [] 10 3) ["x"]
      [.msg (.init "TADA" "1234567890" 1)]).2 (by decide)).1,
    ((ban_gate testHandleEnv (LoginHistory.mk "b" [] [] 10 3) ["x"]
      [.msg (.init "TADA" "1234567890" 1)]).2 (by decide)).2.1⟩

/-- C8: in the `Unready` state, a handshake whose id or key mismatches
the configured values gets no reply (`_process_init` returns `None`)
and the session loop ends there, with the rest of the script never
processed; a handshake matching id and key (the protocol number is not
checked) sets `self.ready` and is answered with the pluggable greeting
lines under `mode=login`, the loop going on. -/
theorem handshake_behaviour (env : HandleEnv) (st : SessState)
    (id key : String) (proto : Nat) (rest : List RecvEvent) (i : Nat)
    (hready : st.ready = false) :
    ((id ≠ env.server_id ∨ key ≠ env.server_key) →
      process_init env (.init id key proto) = (none, false) ∧
      session_loop env st (.msg (.init id key proto) :: rest) i =
        { sent := [], saves := [],
          state := { st with ready := false, resp := some none },
          sendIdx := i, escaped := false }) ∧
    (id = env.server_id → key = env.server_key →
      session_dispatch env st (.init id key proto) =
        .ok (some { lines := env.init_success_lines, mode := Mode.login },
             { st with ready := true }, []) ∧
      (env.send_ok i = true →
        (session_loop env st (.msg (.init id key proto) :: rest) i).sent =
          { lines := env.init_success_lines, mode := Mode.login } ::
            (session_loop env
              { st with ready := true,
                        resp := some (some { lines := env.init_success_lines,
                                             mode := Mode.login }) }
              rest (i + 1)).sent)) := by
  constructor
  · intro hmis
    have hpi : process_init env (.init id key proto) = (none, false) := by
      rcases hmis with hid | hkey
      · simp [process_init, hid]
      · by_cases hid : id = env.server_id
        · simp [process_init, hid, hkey]
        · simp [process_init, hid]
    refine ⟨hpi, ?_⟩
    simp [session_loop, session_dispatch, hready, hpi]
  · intro hid hkey
    have hd : session_dispatch env st (.init id key proto) =
        .ok (some { lines := env.init_success_lines, mode := Mode.login },
             { st with ready := true }, []) := by
      simp [session_dispatch, hready, process_init, hid, hkey]
    refine ⟨hd, fun hsend => ?_⟩
    simp [session_loop, hd, hsend]

/-- Closed instances of `handshake_behaviour`: a wrong key is silently
dropped; the configured id/key from `common.py` is greeted. -/
theorem handshake_behaviour_witness :
    (SessState.mk false none (LoginHistory.mk "a" [] [] 0 0) [] none).ready
        = false ∧
      ("TADA" : String) ≠ "" ∧
      session_loop testHandleEnv
          (SessState.mk false none (LoginHistory.mk "a" [] [] 0 0) [] none)
          [.msg (.init "TADA" "wrong-key" 1)] 0 =
        { sent := [], saves := [],
          state := SessState.mk false none (LoginHistory.mk "a" [] [] 0 0)
            [] (some none),
          sendIdx := 0, escaped := false } ∧
      (session_loop testHandleEnv
          (SessState.mk false none (LoginHistory.mk "a" [] [] 0 0) [] none)
          [.msg (.init "TADA" "1234567890" 1)] 0).sent =
        [{ lines := ["Generic Server.", "Please log in."],
           mode := Mode.login }] :=
  ⟨rfl, by decide,
    ((handshake_behaviour testHandleEnv
        (SessState.mk false none (LoginHistory.mk "a" [] [] 0 0) [] none)
        "TADA" "wrong-key" 1 [] 0 rfl).1
      (Or.inr (by decide))).2,
    by
      rw [((handshake_behaviour testHandleEnv
          (SessState.mk false none (LoginHistory.mk "a" [] [] 0 0) [] none)
          "TADA" "1234567890" 1 [] 0 rfl).2 rfl rfl).2 rfl]
      rfl⟩

/-- C4 is refuted: after the ban reply (`error=login2`, `mode=bye`) is
sent, the server-side loop keeps running; a further message on the same
connection is dispatched to `_process_login` again.  Concretely: with
`fail_count = 9`, a handshake then two unknown-user login attempts
produce three sent replies — greeting, ban reply, ban reply — and the
final `fail_count` of 11 shows `_process_login` ran after the `bye`. -/
theorem session_processes_after_ban_reply :
    (handle testHandleEnv (LoginHistory.mk "1.2.3.4" [] [] 9 0) []
        [.msg (.init "TADA" "1234567890" 1),
         .msg (.login "mallory" "x" ""),
         .msg (.login "mallory" "x" "")]).sent =
      [{ lines := ["Generic Server.", "Please log in."],
         mode := Mode.login },
       error_ban_message, error_ban_message] ∧
    (handle testHandleEnv (LoginHistory.mk "1.2.3.4" [] [] 9 0) []
        [.msg (.init "TADA" "1234567890" 1),
         .msg (.login "mallory" "x" ""),
         .msg (.login "mallory" "x" "")]).lh.fail_count = 11 := by
  decide

/-- One loop iteration in the `AwaitingLogin` state: a login message is
dispatched to `_process_login`; when the call returns (any branch other
than the raising success path), its reply is sent and the loop recurses
on the remaining events with the updated session fields. -/
theorem session_loop_login_sent (env : HandleEnv) (st : SessState)
    (u p ic : String) (rest : List RecvEvent) (i : Nat)
    (hready : st.ready = true) (huser : st.user = none)
    (hs : env.send_ok i = true)
    (hr : (process_login env.login st.connected st.lh u p ic).raised = false) :
    (session_loop env st (.msg (.login u p ic) :: rest) i).sent =
      (process_login env.login st.connected st.lh u p ic).reply ::
        (session_loop env
          { st with
            user := (process_login env.login st.connected st.lh u p ic).user,
            lh := (process_login env.login st.connected st.lh u p ic).history,
            connected :=
              (process_login env.login st.connected st.lh u p ic).connected,
            resp :=
              some (some (process_login env.login st.connected st.lh u p ic).reply) }
          rest (i + 1)).sent := by
  simp only [session_loop, session_dispatch, hready, huser]
  simp [hs, hr]

/-- C4 (amended): the ban reply does carry `mode=bye`, which obliges
the *client* to terminate; the server-side loop does not end on sending
it — a subsequent message on the same connection is dispatched to
`_process_login` and answered in turn.  The loop ends only on peer
disconnect, an empty reply, or a transport exception. -/
theorem ban_reply_not_terminal (env : HandleEnv) (st : SessState)
    (u1 p1 ic1 u2 p2 ic2 : String) (rest : List RecvEvent) (i : Nat)
    (hready : st.ready = true) (huser : st.user = none)
    (hu1 : u1 ≠ "") (hne : env.login.user_exists u1 = false)
    (hni : env.login.invite u1 = none)
    (hfc : fail_limit ≤ st.lh.fail_count + 1)
    (hs1 : env.send_ok i = true) (hs2 : env.send_ok (i + 1) = true)
    (hr2 : (process_login env.login st.connected
      (st.lh.no_user u1 true).state u2 p2 ic2).raised = false) :
    (process_login env.login st.connected st.lh u1 p1 ic1).reply =
      error_ban_message ∧
    error_ban_message.mode = Mode.bye ∧
    ∃ st3,
      (session_loop env st
          (.msg (.login u1 p1 ic1) :: .msg (.login u2 p2 ic2) :: rest)
          i).sent =
        error_ban_message ::
          (process_login env.login st.connected
            (st.lh.no_user u1 true).state u2 p2 ic2).reply ::
          (session_loop env st3 rest (i + 2)).sent := by
  have hban : (process_login env.login st.connected st.lh u1 p1 ic1) =
      { reply := error_ban_message, user := none,
        history := (st.lh.no_user u1 true).state,
        saves := (st.lh.no_user u1 true).saves,
        connected := st.connected } := by
    simp [process_login, hu1, hne, hni, no_user_banned_of_limit _ u1 hfc]
  refine ⟨by rw [hban], rfl, ?_⟩
  have step1 := session_loop_login_sent env st u1 p1 ic1
    (.msg (.login u2 p2 ic2) :: rest) i hready huser hs1 (by rw [hban])
  rw [hban] at step1
  simp only at step1
  have step2 := session_loop_login_sent env
    { st with user := none, lh := (st.lh.no_user u1 true).state,
              resp := some (some error_ban_message) }
    u2 p2 ic2 rest (i + 1) hready rfl hs2 hr2
  simp only at step2
  exact ⟨_, by rw [step1, step2]⟩

/-- Closed instance of `ban_reply_not_terminal` at `fail_count = 9`. -/
theorem ban_reply_not_terminal_witness :
    testHandleEnv.login.user_exists "mallory" = false ∧
      fail_limit ≤ (LoginHistory.mk "1.2.3.4" [] [] 9 0).fail_count + 1 ∧
      (process_login testHandleEnv.login []
          (LoginHistory.mk "1.2.3.4" [] [] 9 0) "mallory" "x" "").reply =
        error_ban_message :=
  ⟨by decide, by decide,
    (ban_reply_not_terminal testHandleEnv
      (SessState.mk true none (LoginHistory.mk "1.2.3.4" [] [] 9 0) [] none)
      "mallory" "x" "" "mallory" "x" "" [] 0 rfl rfl (by decide) (by decide)
      (by decide) (by decide) rfl rfl (by decide)).1⟩

/-- C2 fails on the code: `handle` removes `self.user.id` from
`connected_users` in straight-line code after the loop, with no
`try/finally`; when `_send_data` itself raises inside an `except`
handler (the normal outcome of a broken connection), the exception
escapes `handle` and the removal never runs.  Concretely: after the
greeting, `alice`'s login sets `self.user` and registers her, then the
success path raises `TypeError` (line 247); the inner `except` sends
`server1`/`bye`, the stale `response` (the greeting) is re-sent and that
send fails, and the outer `except`'s `server2` send fails too — `handle`
exits by exception with `alice` still registered and nothing removed. -/
theorem abnormal_disconnect_skips_removal :
    (handle { testHandleEnv with send_ok := fun n => decide (n < 2) }
        (LoginHistory.mk "1.2.3.4" [] [] 0 0) []
        [.msg (.init "TADA" "1234567890" 1),
         .msg (.login "alice" "pw" ""), .raised]).escaped = true ∧
    (handle { testHandleEnv with send_ok := fun n => decide (n < 2) }
        (LoginHistory.mk "1.2.3.4" [] [] 0 0) []
        [.msg (.init "TADA" "1234567890" 1),
         .msg (.login "alice" "pw" ""), .raised]).user = some "alice" ∧
    (handle { testHandleEnv with send_ok := fun n => decide (n < 2) }
        (LoginHistory.mk "1.2.3.4" [] [] 0 0) []
        [.msg (.init "TADA" "1234567890" 1),
         .msg (.login "alice" "pw" ""), .raised]).removed = none ∧
    "alice" ∈
      (handle { testHandleEnv with send_ok := fun n => decide (n < 2) }
        (LoginHistory.mk "1.2.3.4" [] [] 0 0) []
        [.msg (.init "TADA" "1234567890" 1),
         .msg (.login "alice" "pw" ""), .raised]).connected := by
  decide

end NetServer
